import Mathlib

/-!
Verification development for the Smart Goal Planner repository: a shallow
embedding of the goal data model, the derived metrics (progress, remaining,
days-left, status), the repository client operations (create, partial update,
deposit read-modify-write), the form-validation schemas, and the
orchestration error mapping, together with proofs of the specified
properties. JS numbers are modelled as rationals, timestamps as integer
milliseconds, and date strings are kept opaque with their parsed local
midnight supplied as an explicit integer argument.
-/

namespace SmartGoal

/-- The `Goal` record from `src/types/goal.ts`: amounts are JS numbers
(modelled as `ℚ`); `deadline` and `createdAt` are `YYYY-MM-DD` strings. -/
structure Goal where
  id : String
  name : String
  targetAmount : ℚ
  savedAmount : ℚ
  category : String
  deadline : String
  createdAt : String
deriving DecidableEq

/-- The `GoalInput` type from `src/types/goal.ts`: the caller-supplied part
of a new goal. -/
structure GoalInput where
  name : String
  targetAmount : ℚ
  category : String
  deadline : String
deriving DecidableEq

/-- Function `getProgress` from `src/types/goal.ts`:
`if (g.targetAmount <= 0) return 0; return Math.min(100, Math.round((g.savedAmount / g.targetAmount) * 100))`.
JS `Math.round x` is `⌊x + 1/2⌋`, which is Mathlib's `round`. -/
def getProgress (g : Goal) : ℤ :=
  if g.targetAmount ≤ 0 then 0
  else min 100 (round (g.savedAmount / g.targetAmount * 100))

/-- Function `getRemaining` from `src/types/goal.ts`: `Math.max(0, targetAmount - savedAmount)`. -/
def getRemaining (g : Goal) : ℚ :=
  max 0 (g.targetAmount - g.savedAmount)

/-- The constant `1000 * 60 * 60 * 24`, the divisor in `daysLeft` (milliseconds per day). -/
def msPerDay : ℤ := 1000 * 60 * 60 * 24

/-- Function `daysLeft` from `GoalCard.tsx`:
`Math.ceil((dl.getTime() - now.getTime()) / (1000*60*60*24))`, where
`dlMs` stands for `new Date(deadline + "T00:00:00").getTime()` (the deadline
at local midnight) and `nowMs` for `new Date().getTime()` (the raw current
time, not normalized). -/
def daysLeft (nowMs dlMs : ℤ) : ℤ :=
  ⌈((dlMs - nowMs : ℤ) : ℚ) / (msPerDay : ℚ)⌉

/-- The spec's description of days-left: the ceiling of the difference, in
whole days, between the deadline at local midnight and today normalized to
midnight (`todayMidMs`). Stated from the spec's words for comparison with the
code's `daysLeft`. -/
def specDaysLeft (todayMidMs dlMs : ℤ) : ℤ :=
  ⌈((dlMs - todayMidMs : ℤ) : ℚ) / (msPerDay : ℚ)⌉

/-- The four status labels produced by `getStatus` in `GoalCard.tsx`
("Completed", "Overdue", "Due soon", "Active"). -/
inductive Status where
  | Completed : Status
  | Overdue : Status
  | DueSoon : Status
  | Active : Status
deriving DecidableEq

/-- Function `getStatus` from `GoalCard.tsx`:
`complete = savedAmount >= targetAmount && targetAmount > 0`;
`left = daysLeft(deadline)`; then first match of
complete ↦ Completed, `left < 0` ↦ Overdue, `left <= 30` ↦ Due soon,
otherwise Active. `dlMs` is the parsed deadline midnight, `nowMs` the
capture of `new Date()`. -/
def getStatus (g : Goal) (nowMs dlMs : ℤ) : Status :=
  if g.savedAmount ≥ g.targetAmount ∧ g.targetAmount > 0 then .Completed
  else if daysLeft nowMs dlMs < 0 then .Overdue
  else if daysLeft nowMs dlMs ≤ 30 then .DueSoon
  else .Active

/-- The cached balance read in `useDeposit` (`src/api/goals.ts`):
`goals.find((g) => g.id === id)?.savedAmount ?? 0` over the cached goal
collection. -/
def cachedSaved (cache : List Goal) (gid : String) : ℚ :=
  ((cache.find? fun g => g.id == gid).map Goal.savedAmount).getD 0

/-- The `mutationFn` of `useDeposit` (`src/api/goals.ts`): it computes
`newSaved = Math.max(0, (current?.savedAmount ?? 0) + amount)` from the
cached snapshot and issues `patchGoal(id, { savedAmount: newSaved })`; the
pair returned here is the id and `savedAmount` of that PATCH request. -/
def depositRequest (cache : List Goal) (gid : String) (amount : ℚ) : String × ℚ :=
  (gid, max 0 (cachedSaved cache gid + amount))

/-- The TS type `Partial<Goal>` used by `patchGoal(id, data)`: every field
optional; `none` means the field is absent from the PATCH body. -/
structure GoalPatch where
  id : Option String
  name : Option String
  targetAmount : Option ℚ
  savedAmount : Option ℚ
  category : Option String
  deadline : Option String
  createdAt : Option String
deriving DecidableEq

/-- A `Partial<Goal>` carrying only a `name` field, as in
`updateFields(id, {name: "X"})`. -/
def namePatch (s : String) : GoalPatch :=
  ⟨none, some s, none, none, none, none, none⟩

/-- A `Partial<Goal>` carrying only a `savedAmount` field, as issued by
`useDeposit`'s `patchGoal(id, { savedAmount: newSaved })`. -/
def savedPatch (q : ℚ) : GoalPatch :=
  ⟨none, none, none, some q, none, none, none⟩

/-- Modelled from the spec: the store's merge for
`updateFields(id, partialFields)` — "merges only the provided fields into the
existing record; fields not present are untouched". The store itself
(json-server) is outside this repository, so its PATCH semantics are taken
from the spec's words. -/
def applyPatch (g : Goal) (p : GoalPatch) : Goal :=
  { id := p.id.getD g.id
    name := p.name.getD g.name
    targetAmount := p.targetAmount.getD g.targetAmount
    savedAmount := p.savedAmount.getD g.savedAmount
    category := p.category.getD g.category
    deadline := p.deadline.getD g.deadline
    createdAt := p.createdAt.getD g.createdAt }

/-- Modelled from the spec: `updateFields(id, partialFields)` over the stored
collection — the record whose id matches is merged with the provided fields,
every other record is untouched. -/
def updateFields (store : List Goal) (gid : String) (p : GoalPatch) : List Goal :=
  store.map fun g => if g.id == gid then applyPatch g p else g

/-- The record built by `postGoal` (`src/api/goals.ts`):
`id = Date.now().toString()` (here `toString nowMs` for the millisecond
timestamp), `savedAmount = 0`,
`createdAt = new Date().toISOString().split("T")[0]` (today's date string,
passed in as `today`), the rest copied from the input. -/
def postGoalRecord (input : GoalInput) (nowMs : ℕ) (today : String) : Goal :=
  { id := toString nowMs
    name := input.name
    targetAmount := input.targetAmount
    savedAmount := 0
    category := input.category
    deadline := input.deadline
    createdAt := today }

/-- Modelled from the spec: the store persists the POSTed record and the
create operation returns the stored record (json-server POST is outside this
repository). -/
def createStore (store : List Goal) (g : Goal) : List Goal × Goal :=
  (store ++ [g], g)

/-- The raw values a form submission carries (name, targetAmount, category,
deadline), before schema validation. -/
structure RawForm where
  name : String
  targetAmount : ℚ
  category : String
  deadline : String
deriving DecidableEq

/-- The zod `GoalSchema` of the `GoalForm` in the unnamed source part:
`name: min 2`, `targetAmount: positive`, `category: min 1`,
`deadline: min 1`. -/
def goalSchemaValid (v : RawForm) : Bool :=
  decide (2 ≤ v.name.length) && decide (0 < v.targetAmount)
    && decide (1 ≤ v.category.length) && decide (1 ≤ v.deadline.length)

/-- The zod `formSchema` of `src/components/goals/GoalForm.tsx`:
`name: min 1`, `targetAmount: min 1`, `category: min 1`,
`deadline: min 1`. -/
def formSchemaValid (v : RawForm) : Bool :=
  decide (1 ≤ v.name.length) && decide ((1 : ℚ) ≤ v.targetAmount)
    && decide (1 ≤ v.category.length) && decide (1 ≤ v.deadline.length)

/-- Modelled from the spec: react-hook-form's `handleSubmit` with a zod
resolver invokes the submit handler (which performs the repository call)
only when the schema accepts the values; a rejected submission produces no
call (`none`). -/
def submitGate (valid : RawForm → Bool) (v : RawForm) : Option RawForm :=
  if valid v then some v else none

/-- A toast notification as issued by the Index page handlers: either
`toast.success` or `toast.error` with its message. -/
inductive Toast where
  | success : String → Toast
  | error : String → Toast
deriving DecidableEq

/-- JS `e.message || fallback`: the empty string is falsy, so an empty
message falls back. -/
def messageOr (msg fallback : String) : String :=
  if msg = "" then fallback else msg

/-- The error text thrown by `http` (`src/api/goals.ts`) on a non-ok
response: `new Error(text || "Request failed: " + res.status)`. -/
def httpErrorMessage (text : String) (status : ℕ) : String :=
  if text = "" then "Request failed: " ++ toString status else text

/-- Handler `handleCreate` from the Index page: a successful create toasts
`"Goal created"`; a failure toasts `e.message || "Failed to create goal"`.
The repository outcome is the `Except` argument (error carries the thrown
message). -/
def handleCreate (r : Except String Unit) : Toast :=
  match r with
  | .ok _ => .success "Goal created"
  | .error m => .error (messageOr m "Failed to create goal")

/-- Handler `handleUpdate` from the Index page. -/
def handleUpdate (r : Except String Unit) : Toast :=
  match r with
  | .ok _ => .success "Goal updated"
  | .error m => .error (messageOr m "Failed to update goal")

/-- Handler `handleDelete` from the Index page. -/
def handleDelete (r : Except String Unit) : Toast :=
  match r with
  | .ok _ => .success "Goal deleted"
  | .error m => .error (messageOr m "Failed to delete goal")

/-- Handler `handleDeposit` from the Index page. -/
def handleDeposit (r : Except String Unit) : Toast :=
  match r with
  | .ok _ => .success "Deposit successful"
  | .error m => .error (messageOr m "Deposit failed")

/-- Decimal digit characters of `n`, most significant first: the list that
`Nat.toDigitsCore 10` produces, written as a structurally transparent
recursion so that injectivity can be proved. -/
def decChars (n : ℕ) : List Char :=
  if n < 10 then [Nat.digitChar n]
  else decChars (n / 10) ++ [Nat.digitChar (n % 10)]
decreasing_by exact Nat.div_lt_self (by omega) (by omega)

/-- A concrete goal record used to instantiate theorems: target 1000,
saved 200. -/
def gTrip : Goal := ⟨"1", "Trip", 1000, 200, "Travel", "2030-01-01", "2025-01-01"⟩

/-- A concrete completed goal: saved 500 of target 500. -/
def gDone : Goal := ⟨"2", "Laptop", 500, 500, "Education", "2020-01-01", "2019-01-01"⟩

/-- A concrete under-target goal: saved 100 of target 500. -/
def gLow : Goal := ⟨"3", "Car", 500, 100, "Car", "2020-01-01", "2019-01-01"⟩

theorem decChars_length_pos (n : ℕ) : 0 < (decChars n).length := by
  rw [decChars.eq_def]
  split <;> simp

theorem toDigitsCore_decChars (n : ℕ) :
    ∀ fuel ds, n < fuel → Nat.toDigitsCore 10 fuel n ds = decChars n ++ ds := by
  induction n using Nat.strong_induction_on with
  | _ n ih =>
    intro fuel ds hf
    cases fuel with
    | zero => omega
    | succ f =>
      rw [decChars.eq_def]
      by_cases h : n < 10
      · have h0 : n / 10 = 0 := by omega
        simp [Nat.toDigitsCore, h0, h, Nat.mod_eq_of_lt h]
      · have h0 : ¬(n / 10 = 0) := by omega
        have hrec := ih (n / 10) (by omega) f (Nat.digitChar (n % 10) :: ds) (by omega)
        simp only [Nat.toDigitsCore, if_neg h0, if_neg h, hrec]
        simp

theorem toDigits_decChars (n : ℕ) : Nat.toDigits 10 n = decChars n := by
  have h := toDigitsCore_decChars n (n + 1) [] (by omega)
  simpa [Nat.toDigits] using h

theorem digitChar_fin_inj :
    ∀ a b : Fin 10, Nat.digitChar a = Nat.digitChar b → a = b := by decide

theorem digitChar_inj_lt (a b : ℕ) (ha : a < 10) (hb : b < 10)
    (h : Nat.digitChar a = Nat.digitChar b) : a = b := by
  have h2 := digitChar_fin_inj ⟨a, ha⟩ ⟨b, hb⟩ h
  exact congrArg Fin.val h2

theorem decChars_of_lt (n : ℕ) (h : n < 10) : decChars n = [Nat.digitChar n] := by
  rw [decChars.eq_def]
  simp [h]

theorem decChars_of_ge (n : ℕ) (h : ¬n < 10) :
    decChars n = decChars (n / 10) ++ [Nat.digitChar (n % 10)] := by
  conv_lhs => rw [decChars.eq_def]
  simp [h]

theorem decChars_inj : ∀ n m : ℕ, decChars n = decChars m → n = m := by
  intro n
  induction n using Nat.strong_induction_on with
  | _ n ih =>
    intro m h
    by_cases hn : n < 10 <;> by_cases hm : m < 10
    · rw [decChars_of_lt n hn, decChars_of_lt m hm] at h
      have hc : Nat.digitChar n = Nat.digitChar m := by simpa using h
      exact digitChar_inj_lt n m hn hm hc
    · rw [decChars_of_lt n hn, decChars_of_ge m hm] at h
      have hlen := congrArg List.length h
      have hp := decChars_length_pos (m / 10)
      simp only [List.length_append, List.length_cons, List.length_nil] at hlen
      omega
    · rw [decChars_of_ge n hn, decChars_of_lt m hm] at h
      have hlen := congrArg List.length h
      have hp := decChars_length_pos (n / 10)
      simp only [List.length_append, List.length_cons, List.length_nil] at hlen
      omega
    · rw [decChars_of_ge n hn, decChars_of_ge m hm] at h
      have hpair := List.append_inj' h (by simp)
      have hdiv := ih (n / 10) (by omega) (m / 10) hpair.1
      have hmod : n % 10 = m % 10 := by
        have hc : Nat.digitChar (n % 10) = Nat.digitChar (m % 10) := by
          have h2 := hpair.2
          simpa using h2
        exact digitChar_inj_lt _ _ (by omega) (by omega) hc
      omega

theorem natRepr_inj (n m : ℕ) (h : Nat.repr n = Nat.repr m) : n = m := by
  have h2 : Nat.toDigits 10 n = Nat.toDigits 10 m := by
    have h3 := congrArg String.data h
    simpa [Nat.repr, List.asString] using h3
  rw [toDigits_decChars, toDigits_decChars] at h2
  exact decChars_inj n m h2

theorem natToString_inj (n m : ℕ) (h : toString n = toString m) : n = m :=
  natRepr_inj n m h

example : getProgress ⟨"1", "n", 1000, 250, "c", "d", "cr"⟩ = 25 := by
  simp [getProgress]
  norm_num [round_eq]

example : getRemaining ⟨"1", "n", 1000, 250, "c", "d", "cr"⟩ = 750 := by
  norm_num [getRemaining]

example : depositRequest [⟨"1", "n", 1000, 200, "c", "d", "cr"⟩] "1" (-300) = ("1", 0) := by
  norm_num [depositRequest, cachedSaved, List.find?]

theorem daysLeft_eval (nowMs dlMs k : ℤ) (h : dlMs - nowMs = k * msPerDay) :
    daysLeft nowMs dlMs = k := by
  rw [daysLeft, h]
  push_cast
  rw [mul_div_assoc, div_self (by norm_num [msPerDay]), mul_one, Int.ceil_intCast]

/-- C1: for every goal found in the cached collection and every deposit
amount (positive or negative), the deposit operation PATCHes
`savedAmount = max(0, currentSavedAmount + amount)`; when the withdrawal
exceeds the balance (the sum is nonpositive) the goal is drained to exactly
0. No distinct over-withdrawal error exists: `depositRequest` is total and
always issues the request. -/
theorem C1_deposit_clamped (cache : List Goal) (gid : String) (amount : ℚ)
    (g : Goal) (hfind : cache.find? (fun x => x.id == gid) = some g) :
    (depositRequest cache gid amount).2 = max 0 (g.savedAmount + amount) ∧
    (g.savedAmount + amount ≤ 0 → (depositRequest cache gid amount).2 = 0) := by
  have hc : cachedSaved cache gid = g.savedAmount := by
    simp [cachedSaved, hfind]
  exact ⟨by simp [depositRequest, hc],
    fun hle => by simp [depositRequest, hc, max_eq_left hle]⟩

/-- Witness for C1: a deposit of -300 to a goal with savedAmount 200 PATCHes
savedAmount 0. -/
theorem C1_deposit_clamped_witness :
    (depositRequest [gTrip] "1" (-300)).2 = 0 :=
  (C1_deposit_clamped [gTrip] "1" (-300) gTrip rfl).2 (by norm_num [gTrip])

/-- C7: a deposit of 0 to any cached goal with nonnegative savedAmount
leaves the PATCHed savedAmount equal to the current one. -/
theorem C7_deposit_zero_identity (cache : List Goal) (gid : String) (g : Goal)
    (hfind : cache.find? (fun x => x.id == gid) = some g)
    (hs : 0 ≤ g.savedAmount) :
    (depositRequest cache gid 0).2 = g.savedAmount := by
  have hc : cachedSaved cache gid = g.savedAmount := by
    simp [cachedSaved, hfind]
  simp [depositRequest, hc, max_eq_right hs]

/-- Witness for C7: a deposit of 0 to the concrete goal with savedAmount 200
leaves 200. -/
theorem C7_deposit_zero_identity_witness :
    (depositRequest [gTrip] "1" 0).2 = gTrip.savedAmount :=
  C7_deposit_zero_identity [gTrip] "1" gTrip rfl (by norm_num [gTrip])

/-- C10: when no cached goal carries the requested id (in particular when
the cache is empty), the deposit treats the current savedAmount as 0 and
still issues a PATCH with `savedAmount = max(0, amount)`; it does not fail
before the network call. -/
theorem C10_deposit_missing_goal (cache : List Goal) (gid : String)
    (amount : ℚ) (hnone : cache.find? (fun x => x.id == gid) = none) :
    depositRequest cache gid amount = (gid, max 0 amount) := by
  simp [depositRequest, cachedSaved, hnone]

/-- Witness for C10: a deposit against an id absent from the cache issues a
PATCH with savedAmount max(0, amount). -/
theorem C10_deposit_missing_goal_witness :
    depositRequest [gTrip] "77" 50 = ("77", max 0 50) :=
  C10_deposit_missing_goal [gTrip] "77" 50 rfl

/-- C2: for every goal with nonnegative savedAmount (the data-model
invariant), progress is 0 when targetAmount ≤ 0, otherwise
`min(100, round(savedAmount / targetAmount * 100))`; the result is an
integer (the return type is ℤ) in [0, 100], never exceeding 100 even when
savedAmount overshoots the target. -/
theorem C2_progress_spec (g : Goal) (hs : 0 ≤ g.savedAmount) :
    (g.targetAmount ≤ 0 → getProgress g = 0) ∧
    (0 < g.targetAmount →
      getProgress g = min 100 (round (g.savedAmount / g.targetAmount * 100))) ∧
    0 ≤ getProgress g ∧ getProgress g ≤ 100 := by
  refine ⟨fun ht => by simp [getProgress, ht], fun ht => ?_, ?_, ?_⟩
  · rw [getProgress, if_neg (not_le.mpr ht)]
  · by_cases ht : g.targetAmount ≤ 0
    · simp [getProgress, ht]
    · rw [getProgress, if_neg ht]
      have hq : (0 : ℚ) ≤ g.savedAmount / g.targetAmount * 100 := by
        have htp : 0 < g.targetAmount := lt_of_not_le ht
        positivity
      have hr : (0 : ℤ) ≤ round (g.savedAmount / g.targetAmount * 100) := by
        rw [round_eq]
        exact Int.floor_nonneg.mpr (by linarith)
      exact le_min (by norm_num) hr
  · by_cases ht : g.targetAmount ≤ 0
    · simp [getProgress, ht]
    · rw [getProgress, if_neg ht]
      exact min_le_left _ _

/-- Witness for C2: the concrete goal (saved 200 of target 1000) has
progress between 0 and 100. -/
theorem C2_progress_spec_witness :
    0 ≤ getProgress gTrip ∧ getProgress gTrip ≤ 100 :=
  ⟨(C2_progress_spec gTrip (by norm_num [gTrip])).2.2.1,
   (C2_progress_spec gTrip (by norm_num [gTrip])).2.2.2⟩

/-- C3: the status classification applies the precedence, first match
winning: Completed when savedAmount ≥ targetAmount and targetAmount > 0
(regardless of the deadline, so a completed goal with a past deadline is
never Overdue); else Overdue when daysLeft < 0; else DueSoon when
0 ≤ daysLeft ≤ 30; else Active. -/
theorem C3_status_precedence (g : Goal) (nowMs dlMs : ℤ) :
    (g.savedAmount ≥ g.targetAmount ∧ g.targetAmount > 0 →
      getStatus g nowMs dlMs = Status.Completed) ∧
    (¬(g.savedAmount ≥ g.targetAmount ∧ g.targetAmount > 0) →
      daysLeft nowMs dlMs < 0 → getStatus g nowMs dlMs = Status.Overdue) ∧
    (¬(g.savedAmount ≥ g.targetAmount ∧ g.targetAmount > 0) →
      0 ≤ daysLeft nowMs dlMs → daysLeft nowMs dlMs ≤ 30 →
      getStatus g nowMs dlMs = Status.DueSoon) ∧
    (¬(g.savedAmount ≥ g.targetAmount ∧ g.targetAmount > 0) →
      30 < daysLeft nowMs dlMs → getStatus g nowMs dlMs = Status.Active) := by
  refine ⟨fun hc => by simp [getStatus, hc], fun hnc hlt => ?_,
    fun hnc h0 h30 => ?_, fun hnc h30 => ?_⟩
  · simp [getStatus, hnc, hlt]
  · simp [getStatus, hnc, not_lt.mpr h0, h30]
  · simp [getStatus, hnc, not_lt.mpr (by omega : (0:ℤ) ≤ daysLeft nowMs dlMs),
      not_le.mpr h30]

/-- Witness for C3: the concrete completed goal one day past its deadline is
Completed, and the concrete under-target goal one day past its deadline is
Overdue. -/
theorem C3_status_precedence_witness :
    getStatus gDone 86400000 0 = Status.Completed ∧
    getStatus gLow 86400000 0 = Status.Overdue :=
  ⟨(C3_status_precedence gDone 86400000 0).1 (by norm_num [gDone]),
   (C3_status_precedence gLow 86400000 0).2.1 (by norm_num [gLow])
     (by rw [daysLeft_eval 86400000 0 (-1) (by norm_num [msPerDay])]; norm_num)⟩

/-- C4: whenever `todayMid ≤ nowMs < todayMid + msPerDay` (today's local
midnight) and the deadline midnight lies a whole number `k` of days from
today's midnight, the code's `daysLeft` (computed from the raw current time)
equals the spec's ceiling-of-midnight-difference value and equals `k`:
positive when days remain, zero when the deadline is today, negative when it
has passed. -/
theorem C4_daysLeft_whole_days (todayMid nowMs dlMs k : ℤ)
    (h1 : todayMid ≤ nowMs) (h2 : nowMs < todayMid + msPerDay)
    (h3 : dlMs = todayMid + k * msPerDay) :
    daysLeft nowMs dlMs = specDaysLeft todayMid dlMs ∧
    daysLeft nowMs dlMs = k ∧
    (0 < daysLeft nowMs dlMs ↔ todayMid < dlMs) ∧
    (daysLeft nowMs dlMs = 0 ↔ dlMs = todayMid) ∧
    (daysLeft nowMs dlMs < 0 ↔ dlMs < todayMid) := by
  have hD : msPerDay = 86400000 := rfl
  have hDpos : (0 : ℚ) < ((msPerDay : ℤ) : ℚ) := by norm_num [msPerDay]
  have hsplit : ((dlMs - nowMs : ℤ) : ℚ) / ((msPerDay : ℤ) : ℚ)
      = -(((nowMs - todayMid : ℤ) : ℚ) / ((msPerDay : ℤ) : ℚ)) + (k : ℚ) := by
    field_simp
    push_cast [h3]
    ring
  have hfloor : ⌊((nowMs - todayMid : ℤ) : ℚ) / ((msPerDay : ℤ) : ℚ)⌋ = 0 := by
    rw [Int.floor_eq_zero_iff]
    constructor
    · exact div_nonneg (by exact_mod_cast (by omega : (0:ℤ) ≤ nowMs - todayMid))
        (le_of_lt hDpos)
    · rw [div_lt_one hDpos]
      exact_mod_cast (by omega : nowMs - todayMid < msPerDay)
  have hk : daysLeft nowMs dlMs = k := by
    rw [daysLeft, hsplit, Int.ceil_add_int, Int.ceil_neg, hfloor]
    ring
  have hspec : specDaysLeft todayMid dlMs = k := by
    rw [specDaysLeft, h3]
    have hmul : todayMid + k * msPerDay - todayMid = k * msPerDay := by ring
    rw [hmul]
    push_cast
    rw [mul_div_assoc, div_self (by norm_num [msPerDay]), mul_one, Int.ceil_intCast]
  rw [hk, hspec, h3]
  refine ⟨rfl, rfl, ?_, ?_, ?_⟩ <;> rw [hD] <;> omega

/-- Witness for C4: today's midnight 0, current time 5000000 ms into the
day, deadline midnight two whole days ahead: daysLeft is 2 and positive. -/
theorem C4_daysLeft_whole_days_witness :
    daysLeft 5000000 172800000 = specDaysLeft 0 172800000 ∧
    daysLeft 5000000 172800000 = 2 ∧
    (0 < daysLeft 5000000 172800000 ↔ (0 : ℤ) < 172800000) ∧
    (daysLeft 5000000 172800000 = 0 ↔ (172800000 : ℤ) = 0) ∧
    (daysLeft 5000000 172800000 < 0 ↔ (172800000 : ℤ) < 0) :=
  C4_daysLeft_whole_days 0 5000000 172800000 2 (by norm_num)
    (by norm_num [msPerDay]) (by norm_num [msPerDay])

/-- C5: updateFields with the partial body `{name: "X"}` merges only the
name into the record whose id matches — the listed collection afterwards
contains that goal with name "X" and every other field (id, targetAmount,
savedAmount, category, deadline, createdAt) unchanged — leaves every goal
with a different id untouched, and keeps the collection size. The store's
merge semantics are modelled from the spec (see `applyPatch`). -/
theorem C5_updateFields_merges_only_name (store : List Goal) (gid : String)
    (g : Goal) (hg : g ∈ store) :
    (updateFields store gid (namePatch "X")).length = store.length ∧
    (g.id = gid → ∃ g' ∈ updateFields store gid (namePatch "X"),
      g'.name = "X" ∧ g'.id = g.id ∧ g'.targetAmount = g.targetAmount ∧
      g'.savedAmount = g.savedAmount ∧ g'.category = g.category ∧
      g'.deadline = g.deadline ∧ g'.createdAt = g.createdAt) ∧
    (g.id ≠ gid → g ∈ updateFields store gid (namePatch "X")) := by
  refine ⟨by simp [updateFields], fun hid => ?_, fun hid => ?_⟩
  · have hmem : applyPatch g (namePatch "X") ∈ updateFields store gid (namePatch "X") := by
      have h2 := List.mem_map_of_mem
        (fun x => if x.id == gid then applyPatch x (namePatch "X") else x) hg
      simpa [updateFields, hid] using h2
    exact ⟨applyPatch g (namePatch "X"), hmem, rfl, rfl, rfl, rfl, rfl, rfl, rfl⟩
  · have h2 := List.mem_map_of_mem
      (fun x => if x.id == gid then applyPatch x (namePatch "X") else x) hg
    simpa [updateFields, hid] using h2

/-- Witness for C5: patching the name of the goal with id "1" in a two-goal
store keeps the size, rewrites only the name of that goal, and leaves the
other goal untouched. -/
theorem C5_updateFields_merges_only_name_witness :
    (updateFields [gTrip, gDone] "1" (namePatch "X")).length = 2 ∧
    (∃ g' ∈ updateFields [gTrip, gDone] "1" (namePatch "X"),
      g'.name = "X" ∧ g'.id = gTrip.id ∧ g'.targetAmount = gTrip.targetAmount ∧
      g'.savedAmount = gTrip.savedAmount ∧ g'.category = gTrip.category ∧
      g'.deadline = gTrip.deadline ∧ g'.createdAt = gTrip.createdAt) ∧
    gDone ∈ updateFields [gTrip, gDone] "1" (namePatch "X") :=
  ⟨(C5_updateFields_merges_only_name [gTrip, gDone] "1" gTrip
      (by simp)).1,
   (C5_updateFields_merges_only_name [gTrip, gDone] "1" gTrip
      (by simp)).2.1 rfl,
   (C5_updateFields_merges_only_name [gTrip, gDone] "1" gDone
      (by simp)).2.2 (by simp [gDone])⟩

/-- C6: the create operation builds the record with savedAmount 0 and
createdAt set to the creation date regardless of the input, assigns the id
from the creation timestamp (distinct timestamps yield distinct ids), and
the persisted store (modelled from the spec) holds exactly that record,
which is also the returned one. -/
theorem C6_create_spec (input input2 : GoalInput) (n m : ℕ)
    (today today2 : String) (store : List Goal) (hnm : n ≠ m) :
    (postGoalRecord input n today).savedAmount = 0 ∧
    (postGoalRecord input n today).createdAt = today ∧
    (postGoalRecord input n today).id ≠ (postGoalRecord input2 m today2).id ∧
    (createStore store (postGoalRecord input n today)).2
      = postGoalRecord input n today ∧
    postGoalRecord input n today
      ∈ (createStore store (postGoalRecord input n today)).1 := by
  refine ⟨rfl, rfl, fun h => hnm (natToString_inj n m h), rfl, ?_⟩
  simp [createStore]

/-- Witness for C6: creating the "Trip" goal at two consecutive millisecond
timestamps yields savedAmount 0, the supplied creation date, distinct ids,
and the record persisted and returned. -/
theorem C6_create_spec_witness :
    (postGoalRecord ⟨"Trip", 2000, "Travel", "2030-01-01"⟩ 1700000000000
        "2026-10-11").savedAmount = 0 ∧
    (postGoalRecord ⟨"Trip", 2000, "Travel", "2030-01-01"⟩ 1700000000000
        "2026-10-11").createdAt = "2026-10-11" ∧
    (postGoalRecord ⟨"Trip", 2000, "Travel", "2030-01-01"⟩ 1700000000000
        "2026-10-11").id ≠
      (postGoalRecord ⟨"Trip", 2000, "Travel", "2030-01-01"⟩ 1700000000001
        "2026-10-11").id ∧
    (createStore [] (postGoalRecord ⟨"Trip", 2000, "Travel", "2030-01-01"⟩
        1700000000000 "2026-10-11")).2
      = postGoalRecord ⟨"Trip", 2000, "Travel", "2030-01-01"⟩ 1700000000000
          "2026-10-11" ∧
    postGoalRecord ⟨"Trip", 2000, "Travel", "2030-01-01"⟩ 1700000000000
        "2026-10-11"
      ∈ (createStore [] (postGoalRecord ⟨"Trip", 2000, "Travel", "2030-01-01"⟩
          1700000000000 "2026-10-11")).1 :=
  C6_create_spec ⟨"Trip", 2000, "Travel", "2030-01-01"⟩
    ⟨"Trip", 2000, "Travel", "2030-01-01"⟩ 1700000000000 1700000000001
    "2026-10-11" "2026-10-11" [] (by omega)

/-- C8: a submission with an empty name, a non-positive targetAmount, an
empty category, or an empty deadline is rejected by both form schemas and
produces no repository call (`none` from the submit gate); any submission
the gate lets through has a non-empty name, positive targetAmount,
non-empty category, and non-empty deadline. -/
theorem C8_validation_boundary (v : RawForm) :
    ((v.name = "" ∨ v.targetAmount ≤ 0 ∨ v.category = "" ∨ v.deadline = "") →
      submitGate goalSchemaValid v = none ∧ submitGate formSchemaValid v = none) ∧
    (submitGate goalSchemaValid v = some v →
      v.name ≠ "" ∧ 0 < v.targetAmount ∧ v.category ≠ "" ∧ v.deadline ≠ "") ∧
    (submitGate formSchemaValid v = some v →
      v.name ≠ "" ∧ 0 < v.targetAmount ∧ v.category ≠ "" ∧ v.deadline ≠ "") := by
  refine ⟨fun hbad => ?_, fun hsome => ?_, fun hsome => ?_⟩
  · have hg : goalSchemaValid v = false := by
      rcases hbad with h | h | h | h
      · simp [goalSchemaValid, h]
      · simp [goalSchemaValid, not_lt.mpr h]
      · simp [goalSchemaValid, h]
      · simp [goalSchemaValid, h]
    have hf : formSchemaValid v = false := by
      rcases hbad with h | h | h | h
      · simp [formSchemaValid, h]
      · have h1 : ¬((1 : ℚ) ≤ v.targetAmount) := by linarith
        simp [formSchemaValid, h1]
      · simp [formSchemaValid, h]
      · simp [formSchemaValid, h]
    exact ⟨by simp [submitGate, hg], by simp [submitGate, hf]⟩
  · have hv : goalSchemaValid v = true := by
      cases hb : goalSchemaValid v
      · simp [submitGate, hb] at hsome
      · rfl
    simp only [goalSchemaValid, Bool.and_eq_true, decide_eq_true_eq] at hv
    obtain ⟨⟨⟨h1, h2⟩, h3⟩, h4⟩ := hv
    refine ⟨fun h => ?_, h2, fun h => ?_, fun h => ?_⟩
    · rw [h] at h1; simp at h1
    · rw [h] at h3; simp at h3
    · rw [h] at h4; simp at h4
  · have hv : formSchemaValid v = true := by
      cases hb : formSchemaValid v
      · simp [submitGate, hb] at hsome
      · rfl
    simp only [formSchemaValid, Bool.and_eq_true, decide_eq_true_eq] at hv
    obtain ⟨⟨⟨h1, h2⟩, h3⟩, h4⟩ := hv
    refine ⟨fun h => ?_, by linarith, fun h => ?_, fun h => ?_⟩
    · rw [h] at h1; simp at h1
    · rw [h] at h3; simp at h3
    · rw [h] at h4; simp at h4

/-- Witness for C8: a submission with an empty name is stopped by both
schemas before any repository call. -/
theorem C8_validation_boundary_witness :
    submitGate goalSchemaValid ⟨"", 100, "Travel", "2030-01-01"⟩ = none ∧
    submitGate formSchemaValid ⟨"", 100, "Travel", "2030-01-01"⟩ = none :=
  (C8_validation_boundary ⟨"", 100, "Travel", "2030-01-01"⟩).1 (Or.inl rfl)

/-- C9: each user-triggered action maps a successful repository outcome to
its success toast and a failed one to an error toast carrying the failure's
message when it is non-empty, otherwise the per-action fallback ("Failed to
create goal", "Failed to update goal", "Failed to delete goal", "Deposit
failed"); the handlers are total, so no failure propagates uncaught. -/
theorem C9_error_mapping (msg : String) :
    handleCreate (Except.ok ()) = Toast.success "Goal created" ∧
    handleUpdate (Except.ok ()) = Toast.success "Goal updated" ∧
    handleDelete (Except.ok ()) = Toast.success "Goal deleted" ∧
    handleDeposit (Except.ok ()) = Toast.success "Deposit successful" ∧
    (msg ≠ "" →
      handleCreate (Except.error msg) = Toast.error msg ∧
      handleUpdate (Except.error msg) = Toast.error msg ∧
      handleDelete (Except.error msg) = Toast.error msg ∧
      handleDeposit (Except.error msg) = Toast.error msg) ∧
    handleCreate (Except.error "") = Toast.error "Failed to create goal" ∧
    handleUpdate (Except.error "") = Toast.error "Failed to update goal" ∧
    handleDelete (Except.error "") = Toast.error "Failed to delete goal" ∧
    handleDeposit (Except.error "") = Toast.error "Deposit failed" := by
  refine ⟨rfl, rfl, rfl, rfl, fun h => ?_, rfl, rfl, rfl, rfl⟩
  simp [handleCreate, handleUpdate, handleDelete, handleDeposit, messageOr, h]

/-- Witness for C9: a failure whose message is "boom" surfaces "boom" in all
four action handlers. -/
theorem C9_error_mapping_witness :
    handleCreate (Except.error "boom") = Toast.error "boom" ∧
    handleUpdate (Except.error "boom") = Toast.error "boom" ∧
    handleDelete (Except.error "boom") = Toast.error "boom" ∧
    handleDeposit (Except.error "boom") = Toast.error "boom" :=
  (C9_error_mapping "boom").2.2.2.2.1 (by decide)

end SmartGoal
